import Mathlib

/-!
Verification of the whatsapp-mcp analysis server core.

This file gives a shallow embedding, in Lean 4, of the behaviourally
interesting parts of `whatsapp-mcp-server`:

* the transcript formatter and Claude-analysis helpers of `claude.py`
  (`ClaudeAnalyzer._format_messages_for_claude`, `analyze_messages`,
  `summarize_messages`, `extract_topics`, `analyze_sentiment`,
  `extract_action_items`);
* the `/analyze/query` request handler of `api.py` (`analyze_query`),
  including its date defaulting, in-memory refinement filters, period
  rendering and query-type dispatch;
* the daily-summary day-window computation of `api.py` (`daily_summary`);
* the websocket broadcaster of `api.py` (`broadcast_message`).

External collaborators are modelled as capabilities: the message store
(`whatsapp.list_messages`, which lives outside this repository) is an
oracle `ListMessagesArgs → List Message`, and the Anthropic completion
call is an oracle `String → Except String String`.  Python exceptions are
modelled with `Except`; Python `datetime` values are modelled by a record
of calendar fields, with `isoformat` / `fromisoformat` / `strftime`
implemented for the canonical `YYYY-MM-DD[THH:MM:SS[.ffffff]]` shape that
the server itself produces and documents.
-/

/-- Calendar/clock instant, mirroring the fields of Python `datetime`
(no timezone: the source uses naive datetimes throughout). -/
structure DateTime where
  year : Nat
  month : Nat
  day : Nat
  hour : Nat
  minute : Nat
  second : Nat
  microsecond : Nat
deriving Repr, DecidableEq

/-- Days from civil date to the 1970-01-01 epoch (Gregorian, proleptic),
the standard civil-from-days algorithm with truncating division, as used
by Python `datetime` date arithmetic. -/
def daysFromCivil (y m d : Nat) : Int :=
  let yy : Int := if m ≤ 2 then (y : Int) - 1 else (y : Int)
  let era : Int := (if 0 ≤ yy then yy else yy - 399).tdiv 400
  let yoe : Int := yy - era * 400
  let mp : Int := if 2 < m then (m : Int) - 3 else (m : Int) + 9
  let doy : Int := (153 * mp + 2).tdiv 5 + (d : Int) - 1
  let doe : Int := yoe * 365 + yoe.tdiv 4 - yoe.tdiv 100 + doy
  era * 146097 + doe - 719468

/-- Inverse of `daysFromCivil` (year, month, day). -/
def civilFromDays (z0 : Int) : Int × Int × Int :=
  let z : Int := z0 + 719468
  let era : Int := (if 0 ≤ z then z else z - 146096).tdiv 146097
  let doe : Int := z - era * 146097
  let yoe : Int := (doe - doe.tdiv 1460 + doe.tdiv 36524 - doe.tdiv 146096).tdiv 365
  let y : Int := yoe + era * 400
  let doy : Int := doe - (365 * yoe + yoe.tdiv 4 - yoe.tdiv 100)
  let mp : Int := (5 * doy + 2).tdiv 153
  let d : Int := doy - (153 * mp + 2).tdiv 5 + 1
  let m : Int := if mp < 10 then mp + 3 else mp - 9
  (if m ≤ 2 then y + 1 else y, m, d)

/-- `datetime - timedelta(days=n)`: shift the calendar date back by `n`
days, keeping the time of day. -/
def subDays (t : DateTime) (n : Nat) : DateTime :=
  let c := civilFromDays (daysFromCivil t.year t.month t.day - (n : Int))
  { t with year := c.1.toNat, month := c.2.1.toNat, day := c.2.2.toNat }

/-- Microseconds elapsed since the start of the calendar day. -/
def microsOfDay (t : DateTime) : Int :=
  (((t.hour * 60 + t.minute) * 60 + t.second) * 1000000 + t.microsecond : Nat)

/-- Microseconds since the 1970-01-01 00:00:00 epoch; the instant a
`DateTime` denotes, so that differences of instants can be stated. -/
def toEpochMicros (t : DateTime) : Int :=
  daysFromCivil t.year t.month t.day * 86400000000 + microsOfDay t

/-- Zero-pad the decimal rendering of `n` to at least `k` characters,
as Python `%0kd` / `isoformat` field rendering does. -/
def padNum (k n : Nat) : String :=
  let s := toString n
  if s.length < k then String.mk (List.replicate (k - s.length) (Char.ofNat 48)) ++ s else s

/-- `strftime("%Y-%m-%d")`. -/
def strftimeDate (t : DateTime) : String :=
  padNum 4 t.year ++ "-" ++ padNum 2 t.month ++ "-" ++ padNum 2 t.day

/-- `strftime("%H:%M:%S")`. -/
def strftimeTime (t : DateTime) : String :=
  padNum 2 t.hour ++ ":" ++ padNum 2 t.minute ++ ":" ++ padNum 2 t.second

/-- `strftime("%Y-%m-%d %H:%M:%S")`, the transcript timestamp format. -/
def strftimeDateTime (t : DateTime) : String :=
  strftimeDate t ++ " " ++ strftimeTime t

/-- Python `datetime.isoformat()`: `YYYY-MM-DDTHH:MM:SS`, with
`.ffffff` appended exactly when the microsecond field is nonzero. -/
def isoformat (t : DateTime) : String :=
  strftimeDate t ++ "T" ++ strftimeTime t ++
    (if t.microsecond = 0 then "" else "." ++ padNum 6 t.microsecond)

/-- Read exactly `k` decimal digits, most significant first. -/
def readDigits : Nat → Nat → List Char → Option (Nat × List Char)
  | 0, acc, cs => some (acc, cs)
  | k + 1, acc, c :: cs =>
      if c.isDigit then readDigits k (acc * 10 + (c.toNat - 48)) cs else none
  | _ + 1, _, [] => none

/-- Require character `ch` next. -/
def expectChar (ch : Char) : List Char → Option (List Char)
  | c :: cs => if c = ch then some cs else none
  | [] => none

/-- Days in a Gregorian month, used by `datetime` range validation. -/
def daysInMonth (y m : Nat) : Nat :=
  if m = 2 then (if y % 4 = 0 ∧ (y % 100 ≠ 0 ∨ y % 400 = 0) then 29 else 28)
  else if m = 4 ∨ m = 6 ∨ m = 9 ∨ m = 11 then 30 else 31

/-- Range validation performed by the Python `datetime` constructor. -/
def validDateTime (t : DateTime) : Bool :=
  decide (1 ≤ t.month ∧ t.month ≤ 12) &&
  decide (1 ≤ t.day ∧ t.day ≤ daysInMonth t.year t.month) &&
  decide (t.hour ≤ 23 ∧ t.minute ≤ 59 ∧ t.second ≤ 59 ∧ t.microsecond ≤ 999999)

/-- Python `datetime.fromisoformat` on the canonical shape the server
emits and documents: `YYYY-MM-DD`, optionally followed by a `T` or space
separator and `HH:MM:SS`, optionally followed by `.ffffff`.  Returns
`none` where the Python call raises `ValueError`. -/
def fromisoformat (s : String) : Option DateTime := do
  let cs := s.data
  let (y, cs) ← readDigits 4 0 cs
  let cs ← expectChar (Char.ofNat 45) cs
  let (mo, cs) ← readDigits 2 0 cs
  let cs ← expectChar (Char.ofNat 45) cs
  let (d, cs) ← readDigits 2 0 cs
  let t ←
    match cs with
    | [] => some (DateTime.mk y mo d 0 0 0 0)
    | sep :: cs =>
      if sep = Char.ofNat 84 ∨ sep = Char.ofNat 32 then do
        let (h, cs) ← readDigits 2 0 cs
        let cs ← expectChar (Char.ofNat 58) cs
        let (mi, cs) ← readDigits 2 0 cs
        let cs ← expectChar (Char.ofNat 58) cs
        let (sec, cs) ← readDigits 2 0 cs
        match cs with
        | [] => some (DateTime.mk y mo d h mi sec 0)
        | dot :: cs => do
          let cs ← expectChar (Char.ofNat 46) (dot :: cs)
          let (us, cs) ← readDigits 6 0 cs
          if cs.isEmpty then some (DateTime.mk y mo d h mi sec us) else none
      else none
  if validDateTime t then some t else none

/-- Python truthiness of an optional string: `None` and `""` are falsy. -/
def truthyStr : Option String → Bool
  | none => false
  | some s => !(s == "")

/-- Python truthiness of an optional list: `None` and `[]` are falsy. -/
def truthyList : Option (List String) → Bool
  | none => false
  | some l => !l.isEmpty

/-- Python truthiness of an optional bool: `None` and `False` are falsy. -/
def truthyBool : Option Bool → Bool
  | none => false
  | some b => b

/-- `a or b` on Python strings: `a` unless it is falsy (empty). -/
def pyOrStr (a b : String) : String :=
  if a == "" then b else a

/-- `x or b` where `x` is an optional string (`None`/`""` fall through). -/
def pyOrOptStr (x : Option String) (b : String) : String :=
  match x with
  | none => b
  | some a => pyOrStr a b

/-- Is the first list a leading segment of the second? -/
def leadsWith : List Char → List Char → Bool
  | [], _ => true
  | _ :: _, [] => false
  | a :: as, b :: bs => a = b && leadsWith as bs

/-- Does `needle` occur contiguously inside `hay`? -/
def hasSub (needle : List Char) : List Char → Bool
  | [] => needle.isEmpty
  | c :: cs => leadsWith needle (c :: cs) || hasSub needle cs

/-- Python `needle in hay` on strings: contiguous substring test. -/
def strContains (hay needle : String) : Bool :=
  hasSub needle.data hay.data

/-- Python `str.lower()` (ASCII-adequate for the fields involved). -/
def strLower (s : String) : String :=
  s.map Char.toLower

/-- Python `str.upper()` (ASCII-adequate for media-type tags). -/
def strUpper (s : String) : String :=
  s.map Char.toUpper

/-- A WhatsApp message as surfaced by the external store
(`whatsapp.Message`): the fields named by the API layer. -/
structure Message where
  id : String
  timestamp : DateTime
  sender : String
  content : String
  is_from_me : Bool
  chat_jid : String
  chat_name : Option String
  media_type : Option String
deriving Repr, DecidableEq

/-- Body of the formatting loop of
`ClaudeAnalyzer._format_messages_for_claude` (claude.py, lines 32-44):
one transcript line for one message. -/
def formatLine (msg : Message) : String :=
  let sender := if msg.is_from_me then "You" else pyOrOptStr msg.chat_name msg.sender
  let timestamp := strftimeDateTime msg.timestamp
  let content :=
    if truthyStr msg.media_type then
      let base := "[" ++ strUpper (msg.media_type.getD "") ++ " message]"
      if !(msg.content == "") then base ++ ": " ++ msg.content else base
    else pyOrStr msg.content "[No content]"
  "[" ++ timestamp ++ "] " ++ sender ++ ": " ++ content

/-- `ClaudeAnalyzer._format_messages_for_claude` (claude.py, lines
26-46): render a message list into the transcript text block. -/
def format_messages_for_claude (messages : List Message) : String :=
  if messages.isEmpty then "No messages found."
  else String.intercalate "\n" (messages.map formatLine)

/-- JSON-serializable Python value, as stored in the analysis result
dictionaries (only strings, ints and lists occur there). -/
inductive PyValue where
  | str (s : String)
  | int (n : Int)
  | listv (xs : List PyValue)
deriving Repr

/-- A Python dict with string keys, as an association list in insertion
order (Python dicts preserve insertion order). -/
abbrev PyDict : Type := List (String × PyValue)

/-- Python `d.get(k)` / `d.get(k, default)` absent-case: `none` when the
key is missing. -/
def dictGet (d : PyDict) (k : String) : Option PyValue :=
  (d.find? (fun p => p.1 == k)).map (fun p => p.2)

/-- Python `d[k] = v`: replace in place if present, else append. -/
def dictSet (d : PyDict) (k : String) (v : PyValue) : PyDict :=
  if (d.find? (fun p => p.1 == k)).isSome then
    d.map (fun p => if p.1 == k then (k, v) else p)
  else d ++ [(k, v)]

/-- A Python exception as it matters to the handler: `ValueError` is
caught as a 400 with its message, anything else as a 500. -/
inductive PyExn where
  | valueError (msg : String)
  | apiError (msg : String)
deriving Repr, DecidableEq

/-- Argument record of one `whatsapp.list_messages` call (the external
store capability), as built by `analyze_query` (api.py, lines 742-751). -/
structure ListMessagesArgs where
  after : Option String
  before : Option String
  chat_jid : Option String
  query : Option String
  limit : Int
  page : Int
deriving Repr, DecidableEq

/-- `AnalyzeQueryRequest` (api.py, lines 138-160), with its Python
defaults.  Note: `max_messages : int = 100` carries no positivity
validator in the source. -/
structure AnalyzeQueryRequest where
  after : Option String := none
  before : Option String := none
  contact_name : Option String := none
  contact_phone : Option String := none
  chat_jid : Option String := none
  keywords : Option (List String) := none
  media_only : Option Bool := some false
  query_type : String := "summarize"
  custom_query : Option String := none
  max_messages : Int := 100
deriving Repr, DecidableEq

/-- A raised `HTTPException(status_code, detail)`. -/
structure HTTPErr where
  status : Nat
  detail : String
deriving Repr, DecidableEq

/-- `AnalyzeResponse` (api.py, lines 163-170). -/
structure AnalyzeResponse where
  query_type : String
  period : String
  messages_analyzed : Nat
  analysis : String
  metadata : Option PyValue
  timestamp : DateTime
deriving Repr

/-- The ambient process environment: the current instant, the Anthropic
API key (environment variable), and the two external capabilities — the
message store and the completion call. -/
structure Env where
  now : DateTime
  apiKey : Option String
  listMessages : ListMessagesArgs → List Message
  complete : String → Except String String

/-- Effects of one handler run that the claims talk about: every
`list_messages` retrieval performed, and how many completion calls were
issued to the external text provider. -/
structure Eff where
  retrievals : List ListMessagesArgs
  completions : Nat
deriving Repr, DecidableEq

/-- `ClaudeAnalyzer.__init__` (claude.py, lines 16-24): raises
`ValueError` when no API key is configured. -/
def analyzerInit (env : Env) : Except PyExn Unit :=
  if truthyStr env.apiKey then Except.ok ()
  else Except.error (PyExn.valueError "ANTHROPIC_API_KEY environment variable not set")

/-- `ClaudeAnalyzer.analyze_messages` (claude.py, lines 48-98): empty
input short-circuits with a sentinel dict and no completion call;
otherwise format, build the prompt, call the completion capability once
and wrap the text.  Second component counts completion calls. -/
def analyzeMessagesCore (env : Env) (messages : List Message) (query period : String) :
    Except PyExn PyDict × Nat :=
  if messages.isEmpty then
    (Except.ok [("analysis", PyValue.str "No messages found for the specified criteria."),
                ("message_count", PyValue.int 0),
                ("period", PyValue.str period)], 0)
  else
    let prompt := "Analyze the following WhatsApp messages from " ++ period ++ ":\n\n" ++
      format_messages_for_claude messages ++ "\n\n" ++ query ++
      "\n\nPlease provide a clear, concise analysis."
    match env.complete prompt with
    | Except.error e => (Except.error (PyExn.apiError e), 1)
    | Except.ok text =>
        (Except.ok [("analysis", PyValue.str text),
                    ("message_count", PyValue.int (messages.length : Int)),
                    ("period", PyValue.str period),
                    ("timestamp", PyValue.str (isoformat env.now))], 1)

/-- Module-level `claude.analyze_messages` (claude.py, lines 253-260):
constructs the analyzer (API-key check) then analyzes. -/
def claude_analyze_messages (env : Env) (messages : List Message) (query period : String) :
    Except PyExn PyDict × Nat :=
  match analyzerInit env with
  | Except.error e => (Except.error e, 0)
  | Except.ok _ => analyzeMessagesCore env messages query period

/-- The fixed instruction text of `summarize_messages` (claude.py). -/
def summarizeQuery : String :=
  "Provide a concise summary of these messages including:\n- Key topics discussed\n- Important decisions or agreements\n- Action items (if any)\n- Overall sentiment of the conversation"

/-- The fixed instruction text of `extract_topics` (claude.py). -/
def topicsQuery : String :=
  "Extract the main topics discussed in these messages. \nFor each topic, provide a brief description and context.\nFormat as a numbered list."

/-- The fixed instruction text of `analyze_sentiment` (claude.py). -/
def sentimentQuery : String :=
  "Analyze the overall sentiment of this conversation:\n- What is the dominant emotion/tone?\n- Are there any significant mood shifts?\n- Any conflicts or positive interactions?\nProvide a detailed but concise analysis."

/-- The fixed instruction text of `extract_action_items` (claude.py). -/
def actionItemsQuery : String :=
  "Extract any action items, tasks, or to-dos mentioned in these messages:\n- What needs to be done?\n- Who is responsible? (if mentioned)\n- Any deadlines mentioned?\nFormat as a numbered checklist."

/-- Tag the result dict (`result["analysis_type"] = tag`) on success,
as `extract_topics` / `analyze_sentiment` / `extract_action_items` do. -/
def tagResult (r : Except PyExn PyDict × Nat) (tag : String) : Except PyExn PyDict × Nat :=
  match r with
  | (Except.ok d, n) => (Except.ok (dictSet d "analysis_type" (PyValue.str tag)), n)
  | e => e

/-- Module-level `claude.summarize_messages`. -/
def claude_summarize_messages (env : Env) (messages : List Message) (period : String) :
    Except PyExn PyDict × Nat :=
  match analyzerInit env with
  | Except.error e => (Except.error e, 0)
  | Except.ok _ => analyzeMessagesCore env messages summarizeQuery period

/-- Module-level `claude.extract_topics`. -/
def claude_extract_topics (env : Env) (messages : List Message) (period : String) :
    Except PyExn PyDict × Nat :=
  match analyzerInit env with
  | Except.error e => (Except.error e, 0)
  | Except.ok _ => tagResult (analyzeMessagesCore env messages topicsQuery period) "topics"

/-- Module-level `claude.analyze_sentiment`. -/
def claude_analyze_sentiment (env : Env) (messages : List Message) (period : String) :
    Except PyExn PyDict × Nat :=
  match analyzerInit env with
  | Except.error e => (Except.error e, 0)
  | Except.ok _ => tagResult (analyzeMessagesCore env messages sentimentQuery period) "sentiment"

/-- Module-level `claude.extract_action_items`. -/
def claude_extract_action_items (env : Env) (messages : List Message) (period : String) :
    Except PyExn PyDict × Nat :=
  match analyzerInit env with
  | Except.error e => (Except.error e, 0)
  | Except.ok _ => tagResult (analyzeMessagesCore env messages actionItemsQuery period) "action_items"

/-- The date-defaulting prologue of `analyze_query` (api.py, lines
735-739): set `before` to now when falsy; then, when both `after` and
the (already updated) `before` are falsy, default `after` to seven days
back.  The third component records whether that second branch ran. -/
def applyDateDefaults (after before : Option String) (now : DateTime) :
    Option String × Option String × Bool :=
  let before2 := if !truthyStr before then some (isoformat now) else before
  let branch2 := !truthyStr after && !truthyStr before2
  let after2 := if branch2 then some (isoformat (subDays now 7)) else after
  (after2, before2, branch2)

/-- The `list_messages` call arguments built by `analyze_query`
(api.py, lines 742-751): keywords are space-joined when truthy. -/
def retrievalArgs (request : AnalyzeQueryRequest) (after before : Option String) :
    ListMessagesArgs :=
  { after := after
    before := before
    chat_jid := request.chat_jid
    query := if truthyList request.keywords then
        some (String.intercalate " " (request.keywords.getD [])) else none
    limit := request.max_messages
    page := 0 }

/-- In-memory refinement, sender fragment (api.py, lines 754-755):
keep messages whose sender contains the phone fragment, when the
fragment is truthy. -/
def filterByPhone (request : AnalyzeQueryRequest) (messages : List Message) : List Message :=
  if truthyStr request.contact_phone then
    messages.filter (fun m => strContains m.sender (request.contact_phone.getD ""))
  else messages

/-- In-memory refinement, chat-name fragment (api.py, lines 757-758):
case-insensitive substring match against `chat_name or ""`. -/
def filterByName (request : AnalyzeQueryRequest) (messages : List Message) : List Message :=
  if truthyStr request.contact_name then
    messages.filter (fun m =>
      strContains (strLower (pyOrOptStr m.chat_name "")) (strLower (request.contact_name.getD "")))
  else messages

/-- In-memory refinement, media only (api.py, lines 760-761): keep
messages with a truthy `media_type`. -/
def filterByMedia (request : AnalyzeQueryRequest) (messages : List Message) : List Message :=
  if truthyBool request.media_only then
    messages.filter (fun m => truthyStr m.media_type)
  else messages

/-- The refinement pipeline in source order: phone, then chat name,
then media-only. -/
def refineMessages (request : AnalyzeQueryRequest) (messages : List Message) : List Message :=
  filterByMedia request (filterByName request (filterByPhone request messages))

/-- Period description (api.py, lines 763-769): when both dates are
truthy parse them (a `ValueError` surfaces as a 400 with the Python
message), else the literal `"recent messages"`. -/
def periodFor (after before : Option String) : Except HTTPErr String :=
  if truthyStr after && truthyStr before then
    match fromisoformat (after.getD "") with
    | none => Except.error ⟨400, "Invalid isoformat string: \x27" ++ after.getD "" ++ "\x27"⟩
    | some ad =>
      match fromisoformat (before.getD "") with
      | none => Except.error ⟨400, "Invalid isoformat string: \x27" ++ before.getD "" ++ "\x27"⟩
      | some bd => Except.ok (strftimeDate ad ++ " to " ++ strftimeDate bd)
  else Except.ok "recent messages"

/-- Map a Python exception from the claude layer through the handler
catch clauses (api.py, lines 797-802): `HTTPException` passes through,
`ValueError` becomes a 400 with its message, any other exception a 500
with an `"Analysis failed: "` prefix. -/
def toHTTP (r : Except PyExn PyDict × Nat) : Except HTTPErr PyDict × Nat :=
  match r with
  | (Except.ok d, n) => (Except.ok d, n)
  | (Except.error (PyExn.valueError m), n) => (Except.error ⟨400, m⟩, n)
  | (Except.error (PyExn.apiError m), n) =>
      (Except.error ⟨500, "Analysis failed: " ++ m⟩, n)

/-- The query-type dispatch of `analyze_query` (api.py, lines 771-785):
five recognized types; `custom` additionally requires a truthy
`custom_query`; anything else raises 400 `Unknown query_type`. -/
def dispatchQuery (env : Env) (request : AnalyzeQueryRequest)
    (messages : List Message) (period : String) : Except HTTPErr PyDict × Nat :=
  if request.query_type == "summarize" then
    toHTTP (claude_summarize_messages env messages period)
  else if request.query_type == "topics" then
    toHTTP (claude_extract_topics env messages period)
  else if request.query_type == "sentiment" then
    toHTTP (claude_analyze_sentiment env messages period)
  else if request.query_type == "action_items" then
    toHTTP (claude_extract_action_items env messages period)
  else if request.query_type == "custom" then
    if !truthyStr request.custom_query then
      (Except.error ⟨400, "custom_query required when query_type=\x27custom\x27"⟩, 0)
    else
      toHTTP (claude_analyze_messages env messages (request.custom_query.getD "") period)
  else
    (Except.error ⟨400, "Unknown query_type: " ++ request.query_type⟩, 0)

/-- The `/analyze/query` handler `analyze_query` (api.py, lines
709-802): default dates, retrieve from the store, refine in memory,
render the period, dispatch, and build the `AnalyzeResponse`.  The
second component records the retrieval calls and completion-call count
of the run. -/
def analyze_query (env : Env) (request : AnalyzeQueryRequest) :
    Except HTTPErr AnalyzeResponse × Eff :=
  let dd := applyDateDefaults request.after request.before env.now
  let args := retrievalArgs request dd.1 dd.2.1
  let raw := env.listMessages args
  let messages := refineMessages request raw
  match periodFor dd.1 dd.2.1 with
  | Except.error e => (Except.error e, ⟨[args], 0⟩)
  | Except.ok period =>
    match dispatchQuery env request messages period with
    | (Except.error e, n) => (Except.error e, ⟨[args], n⟩)
    | (Except.ok result, n) =>
        (Except.ok
          { query_type := request.query_type
            period := period
            messages_analyzed := messages.length
            analysis := (match dictGet result "analysis" with
                         | some (PyValue.str s) => s
                         | _ => "")
            metadata := dictGet result "metadata"
            timestamp := env.now }, ⟨[args], n⟩)

/-- The day window of `daily_summary` (api.py, lines 828-830):
`target.replace(hour=0, minute=0, second=0, microsecond=0)` and
`target.replace(hour=23, minute=59, second=59, microsecond=999999)`. -/
def daily_summary_window (target : DateTime) : DateTime × DateTime :=
  ({ target with hour := 0, minute := 0, second := 0, microsecond := 0 },
   { target with hour := 23, minute := 59, second := 59, microsecond := 999999 })

/-- The websocket broadcaster `broadcast_message` (api.py, lines
1019-1031): iterate the registered connections (a snapshot, in some
order), attempt one send each, and swallow per-connection failures
(they are only logged).  The function is total: it returns the list of
attempts instead of ever propagating an error, mirroring the `try ...
except` around each send.  `send c payload` stands for
`client.send_text(json-serialized event)`. -/
def broadcast_message {C : Type} (clients : List C)
    (send : C → String → Except String Unit) (payload : String) :
    List (C × Except String Unit) :=
  clients.map (fun c => (c, send c payload))

/-- Whether one delivery attempt succeeded. -/
def attemptOk {C : Type} (p : C × Except String Unit) : Bool :=
  match p.2 with
  | Except.ok _ => true
  | Except.error _ => false

/-- Spec-side rendering of one transcript line, written from the words
of the specification (sender resolution, then media/content rules);
"present"/"set"/"empty" read by Python truthiness, as the specification
itself does in its `[No content]` clause. -/
def formatSpecLine (m : Message) : String :=
  let sender :=
    if m.is_from_me then "You"
    else
      match m.chat_name with
      | some n => if n == "" then m.sender else n
      | none => m.sender
  let content :=
    match m.media_type with
    | some mt =>
      if mt == "" then (if m.content == "" then "[No content]" else m.content)
      else "[" ++ strUpper mt ++ " message]" ++
        (if m.content == "" then "" else ": " ++ m.content)
    | none => if m.content == "" then "[No content]" else m.content
  "[" ++ strftimeDateTime m.timestamp ++ "] " ++ sender ++ ": " ++ content

/-- Spec-side formatter: sentinel for the empty list, else the rendered
lines joined by single newlines. -/
def formatSpec (messages : List Message) : String :=
  match messages with
  | [] => "No messages found."
  | _ => String.intercalate "\n" (messages.map formatSpecLine)

/-- `SemanticSearchRequest` (api.py, lines 186-192). -/
structure SemanticSearchRequest where
  search_query : String
  after : Option String := none
  before : Option String := none
  chat_jid : Option String := none
  max_messages : Int := 100
deriving Repr, DecidableEq

/-- `str(e)` of a modelled Python exception. -/
def pyExnMsg : PyExn → String
  | PyExn.valueError m => m
  | PyExn.apiError m => m

/-- `ClaudeAnalyzer.semantic_search` via the module-level
`claude.semantic_search` (claude.py, lines 196-249 and 299-306):
analyzer construction, empty-input short-circuit, else one completion
call on the search prompt. -/
def claude_semantic_search (env : Env) (messages : List Message)
    (search_query period : String) : Except PyExn PyDict × Nat :=
  match analyzerInit env with
  | Except.error e => (Except.error e, 0)
  | Except.ok _ =>
    if messages.isEmpty then
      (Except.ok [("search_query", PyValue.str search_query),
                  ("relevant_messages", PyValue.listv []),
                  ("summary", PyValue.str "No messages found for the specified criteria."),
                  ("message_count", PyValue.int 0),
                  ("period", PyValue.str period)], 0)
    else
      let prompt := "From the following WhatsApp messages from " ++ period ++
        ", identify and summarize \nthe messages most relevant to: \"" ++ search_query ++
        "\"\n\n" ++ format_messages_for_claude messages ++
        "\n\nProvide:\n1. Summary of relevant content\n2. Any key quotes or important information\n3. Overall relevance assessment"
      match env.complete prompt with
      | Except.error e => (Except.error (PyExn.apiError e), 1)
      | Except.ok text =>
          (Except.ok [("search_query", PyValue.str search_query),
                      ("results", PyValue.str text),
                      ("message_count", PyValue.int (messages.length : Int)),
                      ("period", PyValue.str period),
                      ("timestamp", PyValue.str (isoformat env.now))], 1)

/-- The `list_messages` arguments built by `semantic_search_endpoint`
(api.py, lines 948-956). -/
def searchArgs (request : SemanticSearchRequest) : ListMessagesArgs :=
  { after := request.after
    before := request.before
    chat_jid := request.chat_jid
    query := none
    limit := request.max_messages
    page := 0 }

/-- The `/analyze/search` handler `semantic_search_endpoint` (api.py,
lines 930-985): retrieve, short-circuit on an empty result with a
sentinel dict, else render the period (a bare `except` turns any parse
failure into `"recent messages"`) and run the semantic search; any
exception surfaces as a 500. -/
def semantic_search_endpoint (env : Env) (request : SemanticSearchRequest) :
    Except HTTPErr PyDict × Eff :=
  let args := searchArgs request
  let messages := env.listMessages args
  if messages.isEmpty then
    (Except.ok [("search_query", PyValue.str request.search_query),
                ("results", PyValue.str "No messages found for the specified criteria."),
                ("message_count", PyValue.int 0),
                ("period", PyValue.str "no messages")], ⟨[args], 0⟩)
  else
    let period :=
      if truthyStr request.after && truthyStr request.before then
        match fromisoformat (request.after.getD ""), fromisoformat (request.before.getD "") with
        | some ad, some bd => strftimeDate ad ++ " to " ++ strftimeDate bd
        | _, _ => "recent messages"
      else "recent messages"
    match claude_semantic_search env messages request.search_query period with
    | (Except.error e, n) =>
        (Except.error ⟨500, "Semantic search failed: " ++ pyExnMsg e⟩, ⟨[args], n⟩)
    | (Except.ok d, n) => (Except.ok d, ⟨[args], n⟩)

/-- Fixed reference instant used by the concrete test fixtures. -/
def dt0 : DateTime := ⟨2024, 1, 15, 12, 0, 0, 0⟩

/-- Concrete environment for witnesses: empty store, succeeding
completion capability, API key configured. -/
def envW : Env :=
  { now := dt0
    apiKey := some "test-key"
    listMessages := fun _ => []
    complete := fun _ => Except.ok "ANALYSIS" }

/-- A default `/analyze/query` request (summarize, no filters). -/
def reqDefault : AnalyzeQueryRequest := {}

/-- Request with the closed-set member `semantic_search` as its type. -/
def reqSemantic : AnalyzeQueryRequest := { query_type := "semantic_search" }

/-- Request with a non-positive `max_messages`. -/
def reqZeroLimit : AnalyzeQueryRequest := { max_messages := 0 }

/-- Scenario B fixture: first sender matches fragment `5551234`. -/
def msgB1 : Message :=
  { id := "1", timestamp := dt0, sender := "5551234@x", content := "hi",
    is_from_me := false, chat_jid := "c@g.us", chat_name := some "Chat",
    media_type := none }

/-- Scenario B fixture: second sender does not match the fragment. -/
def msgB2 : Message := { msgB1 with id := "2", sender := "5559999@x" }

/-- Scenario B filter: sender phone fragment `5551234`. -/
def reqScenarioB : AnalyzeQueryRequest := { contact_phone := some "5551234" }

/-- Scenario C fixture: no media. -/
def msgC1 : Message := { msgB1 with id := "3", media_type := none }

/-- Scenario C fixture: an image message. -/
def msgC2 : Message := { msgB1 with id := "4", media_type := some "image" }

/-- Scenario C filter: media only. -/
def reqScenarioC : AnalyzeQueryRequest := { media_only := some true }

/-- Whether an `Except` is a success. -/
def exceptOkB {ε α : Type} : Except ε α → Bool
  | Except.ok _ => true
  | Except.error _ => false

/-! ## Helper lemmas -/

theorem msg_tag_append (c : String) :
    " message]" ++ (": " ++ c) = " message]: " ++ c := by
  rw [← String.append_assoc]
  congr 1

theorem formatLine_eq_spec (m : Message) : formatLine m = formatSpecLine m := by
  unfold formatLine formatSpecLine pyOrOptStr pyOrStr truthyStr strUpper
  cases hf : m.is_from_me <;>
    cases hc : m.chat_name <;>
      cases hm : m.media_type <;>
        simp [hf, hc, hm] <;>
          rcases eq_or_ne m.content "" with hcon | hcon <;>
            simp [hcon, String.append_assoc, msg_tag_append]

/-- C5: the transcript formatter returns the sentinel on the empty
list and otherwise newline-joins, for each message, a line
`[YYYY-MM-DD HH:MM:SS] <sender>: <content>` with sender `You` when
`is_from_me`, else a truthy chat name, else the raw sender; media
messages render as `[<TYPE> message]`, with `: <content>` appended only
for non-empty content, and `[No content]` appears exactly when both
content and media type are empty (Python-falsy). -/
theorem c5_formatter_spec (messages : List Message) :
    format_messages_for_claude messages = formatSpec messages := by
  cases messages with
  | nil => rfl
  | cons m ms =>
    have hmap : List.map formatLine (m :: ms) = List.map formatSpecLine (m :: ms) :=
      List.map_congr_left (fun x _ => formatLine_eq_spec x)
    simp [format_messages_for_claude, formatSpec, hmap]

/-- C7: for every reference date, the daily-summary window starts at
00:00:00.000000 and ends at 23:59:59.999999 of that same calendar day,
and the two instants differ by exactly 86399999999 microseconds
(86399.999999 seconds), independent of month or leap-day boundaries. -/
theorem c7_day_window (D : DateTime) :
    (daily_summary_window D).1.year = D.year ∧
    (daily_summary_window D).1.month = D.month ∧
    (daily_summary_window D).1.day = D.day ∧
    (daily_summary_window D).2.year = D.year ∧
    (daily_summary_window D).2.month = D.month ∧
    (daily_summary_window D).2.day = D.day ∧
    (daily_summary_window D).1.hour = 0 ∧
    (daily_summary_window D).1.minute = 0 ∧
    (daily_summary_window D).1.second = 0 ∧
    (daily_summary_window D).1.microsecond = 0 ∧
    (daily_summary_window D).2.hour = 23 ∧
    (daily_summary_window D).2.minute = 59 ∧
    (daily_summary_window D).2.second = 59 ∧
    (daily_summary_window D).2.microsecond = 999999 ∧
    toEpochMicros (daily_summary_window D).2 - toEpochMicros (daily_summary_window D).1 =
      86399999999 := by
  refine ⟨rfl, rfl, rfl, rfl, rfl, rfl, rfl, rfl, rfl, rfl, rfl, rfl, rfl, rfl, ?_⟩
  show daysFromCivil D.year D.month D.day * 86400000000 +
      microsOfDay ⟨D.year, D.month, D.day, 23, 59, 59, 999999⟩ -
      (daysFromCivil D.year D.month D.day * 86400000000 +
        microsOfDay ⟨D.year, D.month, D.day, 0, 0, 0, 0⟩) = 86399999999
  unfold microsOfDay
  norm_num

theorem filter_of_map {α β : Type} (f : α → β) (p : β → Bool) (l : List α) :
    (l.map f).filter p = (l.filter (fun a => p (f a))).map f := by
  induction l with
  | nil => rfl
  | cons a as ih =>
      simp only [List.map_cons, List.filter_cons, ih]
      cases p (f a) <;> simp

/-- C6: broadcasting with exactly one failing registered connection
still attempts delivery to every connection in the registry snapshot,
completes the other `N - 1` deliveries, and — being a total function —
returns its attempt list to the caller instead of propagating the
failure. -/
theorem c6_broadcast_isolates_failure {C : Type} (clients : List C)
    (send : C → String → Except String Unit) (payload : String)
    (hfail : (clients.filter (fun c => !exceptOkB (send c payload))).length = 1) :
    (broadcast_message clients send payload).map Prod.fst = clients ∧
    (broadcast_message clients send payload).length = clients.length ∧
    ((broadcast_message clients send payload).filter (fun p => exceptOkB p.2)).length =
      clients.length - 1 := by
  refine ⟨?_, ?_, ?_⟩
  · simp [broadcast_message, List.map_map, Function.comp_def]
  · simp [broadcast_message]
  · have hsplit := List.length_eq_length_filter_add
      (l := clients) (fun c => exceptOkB (send c payload))
    unfold broadcast_message
    rw [filter_of_map, List.length_map]
    dsimp only
    omega

/-- C6 witness: three concrete connections, the middle send failing:
all three attempted, two delivered, result returned normally. -/
theorem c6_broadcast_witness :
    (([0, 1, 2] : List Nat).filter
        (fun c => !exceptOkB ((fun c _ => if c = 1 then Except.error "closed" else Except.ok ())
          c "payload"))).length = 1 ∧
    (broadcast_message [0, 1, 2]
        (fun c _ => if c = 1 then Except.error "closed" else Except.ok ()) "payload").map
        Prod.fst = [0, 1, 2] ∧
    (broadcast_message [0, 1, 2]
        (fun c _ => if c = 1 then Except.error "closed" else Except.ok ()) "payload").length
        = 3 ∧
    ((broadcast_message [0, 1, 2]
        (fun c _ => if c = 1 then Except.error "closed" else Except.ok ()) "payload").filter
        (fun p => exceptOkB p.2)).length = 3 - 1 := by
  have h := c6_broadcast_isolates_failure [0, 1, 2]
    (fun c _ => if c = 1 then Except.error "closed" else Except.ok ()) "payload" (by decide)
  exact ⟨by decide, h.1, h.2.1, h.2.2⟩

theorem filterByPhone_name_comm (r : AnalyzeQueryRequest) (l : List Message) :
    filterByPhone r (filterByName r l) = filterByName r (filterByPhone r l) := by
  unfold filterByPhone filterByName
  cases truthyStr r.contact_phone <;> cases truthyStr r.contact_name <;>
    simp [List.filter_comm] <;>
      exact List.filter_congr fun a _ => by rw [Bool.and_comm]

theorem filterByPhone_media_comm (r : AnalyzeQueryRequest) (l : List Message) :
    filterByPhone r (filterByMedia r l) = filterByMedia r (filterByPhone r l) := by
  unfold filterByPhone filterByMedia
  cases truthyStr r.contact_phone <;> cases truthyBool r.media_only <;>
    simp [List.filter_comm] <;>
      exact List.filter_congr fun a _ => by rw [Bool.and_comm]

theorem filterByName_media_comm (r : AnalyzeQueryRequest) (l : List Message) :
    filterByName r (filterByMedia r l) = filterByMedia r (filterByName r l) := by
  unfold filterByName filterByMedia
  cases truthyStr r.contact_name <;> cases truthyBool r.media_only <;>
    simp [List.filter_comm] <;>
      exact List.filter_congr fun a _ => by rw [Bool.and_comm]

/-- C4: the three in-memory refinement predicates (sender fragment,
chat-name fragment, media-only) are pure list filters, and applying
them in any of the six orders yields the same surviving message list,
element for element and in the same order, for every request and every
message list. -/
theorem c4_refinement_order_invariant (r : AnalyzeQueryRequest) (l : List Message) :
    refineMessages r l = filterByMedia r (filterByName r (filterByPhone r l)) ∧
    refineMessages r l = filterByMedia r (filterByPhone r (filterByName r l)) ∧
    refineMessages r l = filterByName r (filterByMedia r (filterByPhone r l)) ∧
    refineMessages r l = filterByName r (filterByPhone r (filterByMedia r l)) ∧
    refineMessages r l = filterByPhone r (filterByMedia r (filterByName r l)) ∧
    refineMessages r l = filterByPhone r (filterByName r (filterByMedia r l)) := by
  have hPN : ∀ x, filterByPhone r (filterByName r x) = filterByName r (filterByPhone r x) :=
    fun x => filterByPhone_name_comm r x
  have hPM : ∀ x, filterByPhone r (filterByMedia r x) = filterByMedia r (filterByPhone r x) :=
    fun x => filterByPhone_media_comm r x
  have hNM : ∀ x, filterByName r (filterByMedia r x) = filterByMedia r (filterByName r x) :=
    fun x => filterByName_media_comm r x
  unfold refineMessages
  refine ⟨rfl, congrArg _ (hPN l).symm, (hNM (filterByPhone r l)).symm, ?_, ?_, ?_⟩
  · calc filterByMedia r (filterByName r (filterByPhone r l))
        = filterByName r (filterByMedia r (filterByPhone r l)) := (hNM _).symm
      _ = filterByName r (filterByPhone r (filterByMedia r l)) := congrArg _ (hPM l).symm
  · calc filterByMedia r (filterByName r (filterByPhone r l))
        = filterByMedia r (filterByPhone r (filterByName r l)) := congrArg _ (hPN l).symm
      _ = filterByPhone r (filterByMedia r (filterByName r l)) := (hPM _).symm
  · calc filterByMedia r (filterByName r (filterByPhone r l))
        = filterByMedia r (filterByPhone r (filterByName r l)) := congrArg _ (hPN l).symm
      _ = filterByPhone r (filterByMedia r (filterByName r l)) := (hPM _).symm
      _ = filterByPhone r (filterByName r (filterByMedia r l)) := congrArg _ (hNM l).symm

/-- C3: after in-memory refinement a message survives iff it was
retrieved and passes each supplied predicate — sender contains the
phone fragment, chat display name contains the name fragment
case-insensitively, and a truthy media type when media-only is set;
moreover, in Scenario B (senders `5551234@x` / `5559999@x`, fragment
`5551234`) only the first message survives, and in Scenario C
(media types `none` / `image`, media-only) only the second survives. -/
theorem c3_refinement_semantics :
    (∀ (r : AnalyzeQueryRequest) (l : List Message) (m : Message),
      m ∈ refineMessages r l ↔
        m ∈ l ∧
        (truthyStr r.contact_phone = true →
          strContains m.sender (r.contact_phone.getD "") = true) ∧
        (truthyStr r.contact_name = true →
          strContains (strLower (pyOrOptStr m.chat_name ""))
            (strLower (r.contact_name.getD "")) = true) ∧
        (truthyBool r.media_only = true → truthyStr m.media_type = true)) ∧
    refineMessages reqScenarioB [msgB1, msgB2] = [msgB1] ∧
    refineMessages reqScenarioC [msgC1, msgC2] = [msgC2] := by
  refine ⟨?_, by decide, by decide⟩
  intro r l m
  unfold refineMessages filterByPhone filterByName filterByMedia
  cases hp : truthyStr r.contact_phone <;>
    cases hn : truthyStr r.contact_name <;>
      cases hm : truthyBool r.media_only <;>
        simp [List.mem_filter] <;> tauto

theorem isoformat_ne_empty (t : DateTime) : (isoformat t == "") = false := by
  rw [beq_eq_false_iff_ne]
  intro he
  have hlen := congrArg String.length he
  simp only [isoformat, String.length_append] at hlen
  have h1 : ("T" : String).length = 1 := rfl
  have h0 : ("" : String).length = 0 := rfl
  rw [h1, h0] at hlen
  omega

theorem applyDateDefaults_spec (after before : Option String) (now : DateTime) :
    (applyDateDefaults after before now).2.2 = false ∧
    (truthyStr after = false → truthyStr before = false →
      applyDateDefaults after before now = (after, some (isoformat now), false)) := by
  constructor
  · unfold applyDateDefaults
    cases hb : truthyStr before
    · simp [hb, truthyStr, isoformat_ne_empty now]
    · simp [hb]
  · intro ha hb
    have ht : truthyStr (some (isoformat now)) = true := by
      simp [truthyStr, isoformat_ne_empty now]
    unfold applyDateDefaults
    simp [ha, hb, ht]

/-- C9: in `analyze_query`, whenever `before` is falsy it is set to the
current instant, whose non-empty ISO rendering is truthy; hence the
guarded `after := 7 days back` branch never runs for any input, and
with both fields absent the store is invoked with `after` unset and
`before = now.isoformat()`. -/
theorem c9_seven_day_branch_unreachable :
    (∀ (after before : Option String) (now : DateTime),
      (applyDateDefaults after before now).2.2 = false) ∧
    (∀ (after before : Option String) (now : DateTime),
      truthyStr after = false → truthyStr before = false →
      applyDateDefaults after before now = (after, some (isoformat now), false)) ∧
    (∀ (env : Env) (request : AnalyzeQueryRequest),
      truthyStr request.after = false → truthyStr request.before = false →
      (analyze_query env request).2.retrievals =
        [retrievalArgs request request.after (some (isoformat env.now))]) := by
  refine ⟨fun a b n => (applyDateDefaults_spec a b n).1,
    fun a b n => (applyDateDefaults_spec a b n).2, ?_⟩
  intro env request ha hb
  have hdd := (applyDateDefaults_spec request.after request.before env.now).2 ha hb
  simp only [analyze_query, hdd]
  split
  · rfl
  · split
    · rfl
    · rfl

/-- C9 witness: with both date fields absent and the concrete clock
`dt0`, the defaulting yields `before = now.isoformat()`, no 7-day
`after` default, and the store call of the default request carries
exactly those dates. -/
theorem c9_witness :
    applyDateDefaults none none dt0 = (none, some (isoformat dt0), false) ∧
    (analyze_query envW reqDefault).2.retrievals =
      [retrievalArgs reqDefault none (some (isoformat dt0))] := by
  constructor
  · exact c9_seven_day_branch_unreachable.2.1 none none dt0 rfl rfl
  · exact c9_seven_day_branch_unreachable.2.2 envW reqDefault rfl rfl

/-- C8 counterexample: a request with `max_messages = 0` is not
rejected — `analyze_query` proceeds to the store call with `limit = 0`
and returns a success response, so no `ValidationError` (4xx) occurs
before retrieval. -/
theorem c8_counterexample :
    reqZeroLimit.max_messages = 0 ∧
    analyze_query envW reqZeroLimit =
      (Except.ok
        { query_type := "summarize", period := "recent messages",
          messages_analyzed := 0,
          analysis := "No messages found for the specified criteria.",
          metadata := none, timestamp := dt0 },
       ⟨[{ after := none, before := some "2024-01-15T12:00:00", chat_jid := none,
           query := none, limit := 0, page := 0 }], 0⟩) :=
  ⟨rfl, rfl⟩

/-- C8 (amended): the handler performs no validation of
`max_messages` at all — every request, non-positive limits included,
results in exactly one store retrieval whose `limit` is the request's
`max_messages` passed through unchanged. -/
theorem c8_no_limit_validation (env : Env) (request : AnalyzeQueryRequest) :
    (analyze_query env request).2.retrievals =
      [retrievalArgs request
        (applyDateDefaults request.after request.before env.now).1
        (applyDateDefaults request.after request.before env.now).2.1] ∧
    (∀ a b, (retrievalArgs request a b).limit = request.max_messages) := by
  constructor
  · simp only [analyze_query]
    split
    · rfl
    · split <;> rfl
  · intro a b
    rfl

theorem findNone_append {α : Type} (p : α → Bool) (l1 l2 : List α)
    (h : l1.find? p = none) : (l1 ++ l2).find? p = l2.find? p := by
  induction l1 with
  | nil => rfl
  | cons a as ih =>
      simp only [List.find?_cons] at h
      simp only [List.cons_append, List.find?_cons]
      cases hp : p a
      · simp only [hp] at h ⊢
        exact ih h
      · rw [hp] at h
        simp at h

theorem dictGet_none_iff_find (d : PyDict) (k : String) :
    dictGet d k = none ↔ d.find? (fun p => p.1 == k) = none := by
  unfold dictGet
  cases hf : d.find? (fun p => p.1 == k) <;> simp [hf]

theorem dictSet_get_none (d : PyDict) (k1 k2 : String) (v : PyValue)
    (hne : (k1 == k2) = false) (habs : dictGet d k1 = none)
    (hk2 : dictGet d k2 = none) :
    dictGet (dictSet d k1 v) k2 = none := by
  rw [dictGet_none_iff_find] at habs hk2
  unfold dictSet
  rw [habs]
  simp only [Option.isSome_none, Bool.false_eq_true, if_false]
  rw [dictGet_none_iff_find, findNone_append _ _ _ hk2]
  simp [List.find?, hne]

theorem analyzeMessagesCore_ok_gets (env : Env) (messages : List Message)
    (query period : String) (d : PyDict) (n : Nat)
    (h : analyzeMessagesCore env messages query period = (Except.ok d, n)) :
    dictGet d "metadata" = none ∧ dictGet d "analysis_type" = none := by
  unfold analyzeMessagesCore at h
  split at h
  · simp only [Prod.mk.injEq, Except.ok.injEq] at h
    obtain ⟨hd, -⟩ := h
    subst hd
    constructor <;> simp [dictGet, List.find?]
  · simp only [] at h
    split at h
    · simp at h
    · simp only [Prod.mk.injEq, Except.ok.injEq] at h
      obtain ⟨hd, -⟩ := h
      subst hd
      constructor <;> simp [dictGet, List.find?]

theorem tagResult_ok_shape (r : Except PyExn PyDict × Nat) (tag : String)
    (d : PyDict) (n : Nat) (h : tagResult r tag = (Except.ok d, n)) :
    ∃ d0, r = (Except.ok d0, n) ∧ d = dictSet d0 "analysis_type" (PyValue.str tag) := by
  rcases r with ⟨re, rn⟩
  cases re with
  | ok d0 =>
      unfold tagResult at h
      simp only [Prod.mk.injEq, Except.ok.injEq] at h
      obtain ⟨hd, hn⟩ := h
      exact ⟨d0, by rw [hn], hd.symm⟩
  | error e =>
      unfold tagResult at h
      simp at h

theorem tagged_ok_metadata (env : Env) (messages : List Message)
    (query period tag : String) (d : PyDict) (n : Nat)
    (h : tagResult (analyzeMessagesCore env messages query period) tag = (Except.ok d, n)) :
    dictGet d "metadata" = none := by
  obtain ⟨d0, hcore, hd⟩ := tagResult_ok_shape _ _ _ _ h
  obtain ⟨hmeta, habs⟩ := analyzeMessagesCore_ok_gets _ _ _ _ _ _ hcore
  subst hd
  exact dictSet_get_none d0 "analysis_type" "metadata" _ (by decide) habs hmeta

theorem toHTTP_ok (r : Except PyExn PyDict × Nat) (d : PyDict) (n : Nat)
    (h : toHTTP r = (Except.ok d, n)) : r = (Except.ok d, n) := by
  rcases r with ⟨re, rn⟩
  cases re with
  | ok d0 =>
      unfold toHTTP at h
      simpa using h
  | error e =>
      cases e <;> (unfold toHTTP at h; simp at h)

theorem initGuard_ok {body : Except PyExn PyDict × Nat} (env : Env) (d : PyDict) (n : Nat)
    (h : (match analyzerInit env with
          | Except.error e => (Except.error e, 0)
          | Except.ok _ => body) = (Except.ok d, n)) :
    body = (Except.ok d, n) := by
  cases hi : analyzerInit env with
  | ok u => rw [hi] at h; exact h
  | error e => rw [hi] at h; simp at h

theorem dispatchQuery_ok_metadata (env : Env) (request : AnalyzeQueryRequest)
    (messages : List Message) (period : String) (d : PyDict) (n : Nat)
    (h : dispatchQuery env request messages period = (Except.ok d, n)) :
    dictGet d "metadata" = none := by
  unfold dispatchQuery at h
  split at h
  · have hc := initGuard_ok env d n (toHTTP_ok _ _ _ h)
    exact (analyzeMessagesCore_ok_gets _ _ _ _ _ _ hc).1
  · split at h
    · have hc := initGuard_ok env d n (toHTTP_ok _ _ _ h)
      exact tagged_ok_metadata _ _ _ _ _ _ _ hc
    · split at h
      · have hc := initGuard_ok env d n (toHTTP_ok _ _ _ h)
        exact tagged_ok_metadata _ _ _ _ _ _ _ hc
      · split at h
        · have hc := initGuard_ok env d n (toHTTP_ok _ _ _ h)
          exact tagged_ok_metadata _ _ _ _ _ _ _ hc
        · split at h
          · split at h
            · simp at h
            · have hc := initGuard_ok env d n (toHTTP_ok _ _ _ h)
              exact (analyzeMessagesCore_ok_gets _ _ _ _ _ _ hc).1
          · simp at h

/-- C10: whenever `/analyze/query` succeeds, the `metadata` field of
the response is `None` — no analysis function ever writes a
`"metadata"` key into its result dictionary, so `result.get("metadata")`
is always absent at response-construction time. -/
theorem c10_metadata_always_none (env : Env) (request : AnalyzeQueryRequest)
    (resp : AnalyzeResponse) (eff : Eff)
    (h : analyze_query env request = (Except.ok resp, eff)) :
    resp.metadata = none := by
  simp only [analyze_query] at h
  split at h
  · simp at h
  · split at h
    · simp at h
    · rename_i result n heq
      simp only [Prod.mk.injEq, Except.ok.injEq] at h
      obtain ⟨hresp, -⟩ := h
      rw [← hresp]
      exact dispatchQuery_ok_metadata _ _ _ _ _ _ heq

/-- C10 witness: the default summarize request against the concrete
environment succeeds, and its response metadata is `None`. -/
theorem c10_witness :
    ({ query_type := "summarize", period := "recent messages",
       messages_analyzed := 0,
       analysis := "No messages found for the specified criteria.",
       metadata := none, timestamp := dt0 } : AnalyzeResponse).metadata = none :=
  c10_metadata_always_none envW reqDefault _
    ⟨[{ after := none, before := some "2024-01-15T12:00:00", chat_jid := none,
        query := none, limit := 100, page := 0 }], 0⟩ rfl

theorem dispatchQuery_empty (env : Env) (request : AnalyzeQueryRequest) (period : String)
    (hqt : request.query_type ∈
      (["summarize", "topics", "sentiment", "action_items", "custom"] : List String))
    (hcustom : request.query_type = "custom" → truthyStr request.custom_query = true)
    (hkey : truthyStr env.apiKey = true) :
    ∃ d, dispatchQuery env request [] period = (Except.ok d, 0) ∧
      dictGet d "analysis" =
        some (PyValue.str "No messages found for the specified criteria.") := by
  have hinit : analyzerInit env = Except.ok () := by
    simp [analyzerInit, hkey]
  simp only [List.mem_cons, List.not_mem_nil, or_false] at hqt
  rcases hqt with h | h | h | h | h
  · exact ⟨[("analysis", PyValue.str "No messages found for the specified criteria."),
            ("message_count", PyValue.int 0), ("period", PyValue.str period)],
      by simp [dispatchQuery, h, claude_summarize_messages, hinit, analyzeMessagesCore,
               toHTTP],
      rfl⟩
  · exact ⟨[("analysis", PyValue.str "No messages found for the specified criteria."),
            ("message_count", PyValue.int 0), ("period", PyValue.str period),
            ("analysis_type", PyValue.str "topics")],
      by simp [dispatchQuery, h, claude_extract_topics, hinit, analyzeMessagesCore,
               tagResult, dictSet, dictGet, toHTTP],
      rfl⟩
  · exact ⟨[("analysis", PyValue.str "No messages found for the specified criteria."),
            ("message_count", PyValue.int 0), ("period", PyValue.str period),
            ("analysis_type", PyValue.str "sentiment")],
      by simp [dispatchQuery, h, claude_analyze_sentiment, hinit, analyzeMessagesCore,
               tagResult, dictSet, dictGet, toHTTP],
      rfl⟩
  · exact ⟨[("analysis", PyValue.str "No messages found for the specified criteria."),
            ("message_count", PyValue.int 0), ("period", PyValue.str period),
            ("analysis_type", PyValue.str "action_items")],
      by simp [dispatchQuery, h, claude_extract_action_items, hinit, analyzeMessagesCore,
               tagResult, dictSet, dictGet, toHTTP],
      rfl⟩
  · refine ⟨[("analysis", PyValue.str "No messages found for the specified criteria."),
             ("message_count", PyValue.int 0), ("period", PyValue.str period)],
      ?_, rfl⟩
    have hcq := hcustom h
    simp [dispatchQuery, h, hcq, claude_analyze_messages, hinit, analyzeMessagesCore,
          toHTTP]

/-- C1: for every well-formed analysis request (a recognized query
type, a custom query when required, a configured API key, parseable
effective dates) whose filtered message sequence is empty, the handler
short-circuits: no completion call is made and the response carries
`messages_analyzed = 0` with analysis text exactly
`"No messages found for the specified criteria."`; likewise the
semantic-search endpoint short-circuits on an empty retrieval with the
same sentinel text and a zero count. -/
theorem c1_empty_short_circuit :
    (∀ (env : Env) (request : AnalyzeQueryRequest),
      request.query_type ∈
        (["summarize", "topics", "sentiment", "action_items", "custom"] : List String) →
      (request.query_type = "custom" → truthyStr request.custom_query = true) →
      truthyStr env.apiKey = true →
      (∃ p, periodFor (applyDateDefaults request.after request.before env.now).1
        (applyDateDefaults request.after request.before env.now).2.1 = Except.ok p) →
      refineMessages request (env.listMessages (retrievalArgs request
        (applyDateDefaults request.after request.before env.now).1
        (applyDateDefaults request.after request.before env.now).2.1)) = [] →
      ∃ resp eff, analyze_query env request = (Except.ok resp, eff) ∧
        resp.messages_analyzed = 0 ∧
        resp.analysis = "No messages found for the specified criteria." ∧
        eff.completions = 0) ∧
    (∀ (env : Env) (srequest : SemanticSearchRequest),
      env.listMessages (searchArgs srequest) = [] →
      semantic_search_endpoint env srequest =
        (Except.ok [("search_query", PyValue.str srequest.search_query),
                    ("results", PyValue.str "No messages found for the specified criteria."),
                    ("message_count", PyValue.int 0),
                    ("period", PyValue.str "no messages")],
         ⟨[searchArgs srequest], 0⟩)) := by
  constructor
  · intro env request hqt hcustom hkey hperiod hempty
    obtain ⟨p, hp⟩ := hperiod
    obtain ⟨d, hdisp, hana⟩ := dispatchQuery_empty env request p hqt hcustom hkey
    simp only [analyze_query]
    rw [hp, hempty]
    dsimp only
    rw [hdisp]
    refine ⟨_, _, rfl, rfl, ?_, rfl⟩
    simp [hana]
  · intro env srequest hempty
    simp [semantic_search_endpoint, hempty]

/-- C1 witness: the default summarize request against the concrete
empty store: success, zero messages analyzed, the sentinel text, and
no completion call. -/
theorem c1_witness :
    ∃ resp eff, analyze_query envW reqDefault = (Except.ok resp, eff) ∧
      resp.messages_analyzed = 0 ∧
      resp.analysis = "No messages found for the specified criteria." ∧
      eff.completions = 0 :=
  c1_empty_short_circuit.1 envW reqDefault (by decide)
    (fun h => absurd h (by decide)) rfl ⟨"recent messages", rfl⟩ rfl

/-- C2 counterexample: `semantic_search` belongs to the closed set the
claim names, yet the `/analyze/query` dispatcher rejects it with the
400 `Unknown query_type` error (it is served by the separate
`/analyze/search` endpoint instead). -/
theorem c2_counterexample :
    "semantic_search" ∈
      (["summarize", "topics", "sentiment", "action_items", "custom",
        "semantic_search"] : List String) ∧
    (analyze_query envW reqSemantic).1 =
      Except.error ⟨400, "Unknown query_type: semantic_search"⟩ :=
  ⟨by decide, rfl⟩

theorem analyzerInit_err (env : Env) (e : PyExn)
    (h : analyzerInit env = Except.error e) :
    e = PyExn.valueError "ANTHROPIC_API_KEY environment variable not set" := by
  unfold analyzerInit at h
  split at h
  · simp at h
  · simp only [Except.error.injEq] at h
    exact h.symm

theorem core_no_valueError (env : Env) (messages : List Message)
    (query period m : String) (k : Nat)
    (h : analyzeMessagesCore env messages query period =
      (Except.error (PyExn.valueError m), k)) : False := by
  unfold analyzeMessagesCore at h
  split at h
  · simp at h
  · simp only [] at h
    split at h
    · simp at h
    · simp at h

theorem tagResult_err (r : Except PyExn PyDict × Nat) (tag : String) (e : PyExn) (n : Nat)
    (h : tagResult r tag = (Except.error e, n)) : r = (Except.error e, n) := by
  rcases r with ⟨re, rn⟩
  cases re with
  | ok d0 =>
      unfold tagResult at h
      simp at h
  | error e0 =>
      unfold tagResult at h
      exact h

theorem initGuard_err (env : Env) (body : Except PyExn PyDict × Nat) (e : PyExn) (n : Nat)
    (h : (match analyzerInit env with
          | Except.error e0 => (Except.error e0, 0)
          | Except.ok _ => body) = (Except.error e, n))
    (hbody : ∀ m k, body = (Except.error (PyExn.valueError m), k) → False) :
    e = PyExn.valueError "ANTHROPIC_API_KEY environment variable not set" ∨
    ∃ m, e = PyExn.apiError m := by
  cases hi : analyzerInit env with
  | error e0 =>
      rw [hi] at h
      simp only [Prod.mk.injEq, Except.error.injEq] at h
      left
      rw [← h.1]
      exact analyzerInit_err env e0 hi
  | ok u =>
      rw [hi] at h
      cases e with
      | valueError m => exact absurd h (hbody m n)
      | apiError m => exact Or.inr ⟨m, rfl⟩

theorem toHTTP_err_not_unknown (r : Except PyExn PyDict × Nat) (qt : String)
    (hkeyne : ("ANTHROPIC_API_KEY environment variable not set" : String) ≠
      "Unknown query_type: " ++ qt)
    (hshape : ∀ e n, r = (Except.error e, n) →
      e = PyExn.valueError "ANTHROPIC_API_KEY environment variable not set" ∨
      ∃ m, e = PyExn.apiError m) :
    (toHTTP r).1 ≠ Except.error ⟨400, "Unknown query_type: " ++ qt⟩ := by
  intro hcontra
  rcases r with ⟨re, rn⟩
  cases re with
  | ok d0 => simp [toHTTP] at hcontra
  | error e =>
      rcases hshape e rn rfl with he | ⟨m, he⟩ <;> subst he
      · simp only [toHTTP, Except.error.injEq, HTTPErr.mk.injEq] at hcontra
        exact hkeyne hcontra.2
      · simp [toHTTP] at hcontra

theorem dispatchQuery_known_not_unknown (env : Env) (request : AnalyzeQueryRequest)
    (messages : List Message) (period : String)
    (hmem : request.query_type ∈
      (["summarize", "topics", "sentiment", "action_items", "custom"] : List String)) :
    (dispatchQuery env request messages period).1 ≠
      Except.error ⟨400, "Unknown query_type: " ++ request.query_type⟩ := by
  simp only [List.mem_cons, List.not_mem_nil, or_false] at hmem
  rcases hmem with h | h | h | h | h
  · have hd : dispatchQuery env request messages period =
        toHTTP (claude_summarize_messages env messages period) := by
      simp [dispatchQuery, h]
    rw [hd, h]
    refine toHTTP_err_not_unknown _ _ (by decide) ?_
    intro e n hh
    unfold claude_summarize_messages at hh
    exact initGuard_err env _ e n hh
      (fun m k hk => core_no_valueError env messages summarizeQuery period m k hk)
  · have hd : dispatchQuery env request messages period =
        toHTTP (claude_extract_topics env messages period) := by
      simp [dispatchQuery, h]
    rw [hd, h]
    refine toHTTP_err_not_unknown _ _ (by decide) ?_
    intro e n hh
    unfold claude_extract_topics at hh
    exact initGuard_err env _ e n hh
      (fun m k hk => core_no_valueError env messages topicsQuery period m k
        (tagResult_err _ _ _ _ hk))
  · have hd : dispatchQuery env request messages period =
        toHTTP (claude_analyze_sentiment env messages period) := by
      simp [dispatchQuery, h]
    rw [hd, h]
    refine toHTTP_err_not_unknown _ _ (by decide) ?_
    intro e n hh
    unfold claude_analyze_sentiment at hh
    exact initGuard_err env _ e n hh
      (fun m k hk => core_no_valueError env messages sentimentQuery period m k
        (tagResult_err _ _ _ _ hk))
  · have hd : dispatchQuery env request messages period =
        toHTTP (claude_extract_action_items env messages period) := by
      simp [dispatchQuery, h]
    rw [hd, h]
    refine toHTTP_err_not_unknown _ _ (by decide) ?_
    intro e n hh
    unfold claude_extract_action_items at hh
    exact initGuard_err env _ e n hh
      (fun m k hk => core_no_valueError env messages actionItemsQuery period m k
        (tagResult_err _ _ _ _ hk))
  · cases hcq : truthyStr request.custom_query with
    | false =>
        have hd : dispatchQuery env request messages period =
            (Except.error ⟨400, "custom_query required when query_type=\x27custom\x27"⟩, 0) := by
          simp [dispatchQuery, h, hcq]
        rw [hd, h]
        intro hcontra
        simp only [Except.error.injEq, HTTPErr.mk.injEq] at hcontra
        exact absurd hcontra.2 (by decide)
    | true =>
        have hd : dispatchQuery env request messages period =
            toHTTP (claude_analyze_messages env messages
              (request.custom_query.getD "") period) := by
          simp [dispatchQuery, h, hcq]
        rw [hd, h]
        refine toHTTP_err_not_unknown _ _ (by decide) ?_
        intro e n hh
        unfold claude_analyze_messages at hh
        exact initGuard_err env _ e n hh
          (fun m k hk => core_no_valueError env messages
            (request.custom_query.getD "") period m k hk)

/-- C2 (amended): for requests whose effective dates render a period
successfully, the `/analyze/query` dispatcher fails with the 400
`Unknown query_type` error exactly when the query type lies outside
`{summarize, topics, sentiment, action_items, custom}`; in particular
`semantic_search` — though in the specification's closed set, being
served by the separate `/analyze/search` endpoint — is rejected here,
and the five dispatched types never produce that error. -/
theorem c2_invalid_query_type_iff (env : Env) (request : AnalyzeQueryRequest)
    (hperiod : ∃ p, periodFor (applyDateDefaults request.after request.before env.now).1
      (applyDateDefaults request.after request.before env.now).2.1 = Except.ok p) :
    ((analyze_query env request).1 =
      Except.error ⟨400, "Unknown query_type: " ++ request.query_type⟩) ↔
    request.query_type ∉
      (["summarize", "topics", "sentiment", "action_items", "custom"] : List String) := by
  obtain ⟨p, hp⟩ := hperiod
  constructor
  · intro herr hmem
    simp only [analyze_query] at herr
    rw [hp] at herr
    dsimp only at herr
    set msgs := refineMessages request (env.listMessages (retrievalArgs request
      (applyDateDefaults request.after request.before env.now).1
      (applyDateDefaults request.after request.before env.now).2.1)) with hmsgs
    rcases hdq : dispatchQuery env request msgs p with ⟨de, dn⟩
    rw [hdq] at herr
    cases de with
    | ok d0 => simp at herr
    | error e =>
        dsimp only at herr
        refine dispatchQuery_known_not_unknown env request msgs p hmem ?_
        rw [hdq]
        dsimp only
        simp only [Except.error.injEq] at herr
        rw [herr]
  · intro hnot
    simp only [List.mem_cons, List.not_mem_nil, or_false, not_or] at hnot
    obtain ⟨h1, h2, h3, h4, h5⟩ := hnot
    have b1 : (request.query_type == "summarize") = false := beq_eq_false_iff_ne.mpr h1
    have b2 : (request.query_type == "topics") = false := beq_eq_false_iff_ne.mpr h2
    have b3 : (request.query_type == "sentiment") = false := beq_eq_false_iff_ne.mpr h3
    have b4 : (request.query_type == "action_items") = false := beq_eq_false_iff_ne.mpr h4
    have b5 : (request.query_type == "custom") = false := beq_eq_false_iff_ne.mpr h5
    have hd : ∀ msgs, dispatchQuery env request msgs p =
        (Except.error ⟨400, "Unknown query_type: " ++ request.query_type⟩, 0) := by
      intro msgs
      simp [dispatchQuery, b1, b2, b3, b4, b5]
    simp only [analyze_query]
    rw [hp]
    dsimp only
    rw [hd]

/-- C2 witness: the amended theorem applied at the concrete
`semantic_search` request — the dispatcher answers 400
`Unknown query_type: semantic_search`. -/
theorem c2_witness :
    (analyze_query envW reqSemantic).1 =
      Except.error ⟨400, "Unknown query_type: " ++ reqSemantic.query_type⟩ :=
  (c2_invalid_query_type_iff envW reqSemantic ⟨"recent messages", rfl⟩).mpr (by decide)
